import Mathlib

/-!
Shallow embedding of `src/hikka/inline/form.py` (the inline-form lifecycle
engine of thelisx/termux-Hikka).  Button-spec dicts become a structure with
optional fields (a `none` or `false` field models an absent dict key), the
process-wide form store `self._forms` becomes an association list threaded
explicitly through every operation, and the random-token source `utils.rand`
becomes a deterministic counter-indexed token supply.  Fallible boundary
operations return `Except`; an uncaught Python exception is an `.error`
value, a caught-and-reported failure is an ordinary result.
-/

namespace HikkaForm

/-- Deterministic stand-in for `utils.rand(len)`: the token drawn when the
global token counter is `k`.  Only the length and the counter-indexing of
tokens matter to the embedded code, not their distribution. -/
def rand (len k : Nat) : String :=
  String.mk (List.replicate len (Char.ofNat (97 + k % 26)))

/-- A button spec: one Python dict from a `reply_markup` row.  Each field
models one dict key; `none` (or `false` for `callback`) means the key is
absent.  `callback_data` and `switch_query` model the reserved keys
`_callback_data` and `_switch_query`.  The value under `callback` is a
handler whose content the module never inspects, so only its presence is
kept. -/
structure Button where
  text : Option String := none
  url : Option String := none
  callback : Bool := false
  input : Option String := none
  data : Option String := none
  callback_data : Option String := none
  switch_query : Option String := none
deriving DecidableEq, Repr

/-- A reply-markup grid: rows of button specs. -/
abbrev Grid := List (List Button)

/-- The `on_unload` hook: a zero-argument callable which, when invoked, can
either return normally or raise. -/
structure Hook where
  raises : Bool
deriving DecidableEq, Repr

/-- One value of `self._forms`: the form record dict built in `Form.form`
(lines 135-145 of form.py). -/
structure FormRecord where
  text : String
  buttons : Grid
  ttl : Int
  force_me : Bool
  always_allow : List Int
  chat : Option Int
  message_id : Option Nat
  uid : String
  on_unload : Option Hook
deriving DecidableEq, Repr

/-- The form store `self._forms`: a Python dict modelled as an association
list in insertion order (Python dicts preserve insertion order, which the
inline handler relies on when scanning `self._forms.copy().values()`). -/
abbrev Store := List (String × FormRecord)

/-- Dict lookup `self._forms[uid]`, as an `Option`. -/
def storeGet : Store → String → Option FormRecord
  | [], _ => none
  | (k, v) :: rest, key => if k = key then some v else storeGet rest key

/-- Dict assignment `self._forms[uid] = rec`: replace in place, else append. -/
def storeSet : Store → String → FormRecord → Store
  | [], key, v => [(key, v)]
  | (k, w) :: rest, key, v =>
      if k = key then (k, v) :: rest else (k, w) :: storeSet rest key v

/-- Dict deletion `del self._forms[uid]` (keys are unique in a dict, so
removing every occurrence coincides with removing the single entry). -/
def storeDel : Store → String → Store
  | [], _ => []
  | (k, v) :: rest, key =>
      if k = key then storeDel rest key else (k, v) :: storeDel rest key

/-- An uncaught Python exception escaping one of the embedded operations. -/
inductive PyErr
  | keyError
  | indexError
deriving DecidableEq, Repr

/-- Modelled from the spec: `self._markup_ttl` is set in `InlineUnit`
(`src/hikka/inline/types.py`, not among the sources); the spec fixes the
default and maximum TTL at 24 hours, that is 86400 seconds. -/
def markup_ttl : Int := 86400

/-- The ttl argument of `Form.form`: `Union[int, bool]`, default `False`. -/
inductive TtlArg
  | int (n : Int)
  | bool (b : Bool)
deriving DecidableEq, Repr

/-- The integer value Python sees for a ttl argument (`bool` is a subtype of
`int` in Python, so `isinstance(ttl, int)` holds for both constructors and
`False` counts as `0`, `True` as `1`). -/
def ttlAsInt : TtlArg → Int
  | .int n => n
  | .bool b => if b then 1 else 0

/-- Line 129 of form.py: `if isinstance(ttl, int) and (ttl > self._markup_ttl
or ttl < 10): ttl = self._markup_ttl`. -/
def clampTtl (t : Int) : Int :=
  if markup_ttl < t ∨ t < 10 then markup_ttl else t

/-- Line 138 of form.py: `round(time.time()) + ttl or self._markup_ttl` —
Python `or` keeps the left operand unless it is falsy (zero). -/
def storedTtl (now : Nat) (t : Int) : Int :=
  if (now : Int) + t = 0 then markup_ttl else (now : Int) + t

/-- Line 97-106 of form.py: every button dict must carry one of the keys
`url`, `callback`, `input`, `data`. -/
def buttonHasKind (b : Button) : Bool :=
  b.url.isSome || b.callback || b.input.isSome || b.data.isSome

/-- The grid-shape validation of `Form.form`. -/
def gridValid (g : Grid) : Bool :=
  g.all fun row => row.all buttonHasKind

/-- Line 175-178 of form.py: whether any button in the grid carries a
`callback` or `input` key. -/
def hasInteractive (g : Grid) : Bool :=
  g.any fun row => row.any fun b => b.callback || b.input.isSome

/-- The `message` argument of `Form.form`: either a telethon `Message`
(with its chat, reply target and the `out` flag) or a raw chat id. -/
inductive Target
  | message (chat_id : Int) (reply_to : Option Nat) (out : Bool)
  | chat (id : Int)
deriving DecidableEq, Repr

/-- Where the failure notice of lines 163-166 of form.py goes: `message.edit`
when the target is an outgoing message, `message.respond` for another
message, `send_message` for a raw chat id. -/
inductive Notice
  | editedMessage
  | replied
  | sentToChat
deriving DecidableEq, Repr

/-- Result of `Form.form`: a validation failure (returned `False` before any
side effect), a transport failure during materialization (returned `False`
after cleanup and after delivering the given notice), or the form id. -/
inductive CreateOut
  | invalid
  | transportFail (n : Notice)
  | ok (uid : String)
deriving DecidableEq, Repr

/-- Lines 163-166 of form.py: the channel of the failure notice —
`message.edit` when the target is an outgoing message, `message.respond`
for another message, `send_message` for a raw chat id. -/
def noticeFor : Target → Notice
  | .message _ _ true => .editedMessage
  | .message _ _ false => .replied
  | .chat _ => .sentToChat

/-- The provisional record registered at lines 135-145 of form.py. -/
def initialRecord (text : String) (g : Grid) (now : Nat) (t : Int)
    (fm : Bool) (allow : List Int) (uid : String) (ou : Option Hook) :
    FormRecord :=
  { text := text
    buttons := g
    ttl := storedTtl now (clampTtl t)
    force_me := fm
    always_allow := allow
    chat := none
    message_id := none
    uid := uid
    on_unload := ou }

/-- `Form.form` (lines 40-184 of form.py).  `c` is the token counter, `now`
the value of `round(time.time())`.  The transport round trip of lines
147-154 (`inline_query` plus `click`) is abstracted by `click`: `none` means
the try-block raised, `some (chat, mid)` the materialized message.  The type
checks on `text`, `message`, `force_me`, `always_allow` and `ttl` cannot
fire in this typed embedding; the per-button key check (lines 97-115) can
and is kept. -/
def formCreate (st : Store) (c now : Nat) (text : String) (message : Target)
    (reply_markup : Option Grid) (force_me : Bool)
    (always_allow : Option (List Int)) (ttl : TtlArg) (on_unload : Option Hook)
    (click : Option (Int × Nat)) : CreateOut × Store × Nat :=
  if gridValid (reply_markup.getD []) = false then (.invalid, st, c)
  else
    match click with
    | none =>
        (.transportFail (noticeFor message),
         storeDel
           (storeSet st (rand 30 c)
             (initialRecord text (reply_markup.getD []) now (ttlAsInt ttl)
               force_me (always_allow.getD []) (rand 30 c) on_unload))
           (rand 30 c),
         c + 1)
    | some pm =>
        if hasInteractive (reply_markup.getD []) = false then
          (.ok (rand 30 c),
           storeDel
             (storeSet
               (storeSet st (rand 30 c)
                 (initialRecord text (reply_markup.getD []) now (ttlAsInt ttl)
                   force_me (always_allow.getD []) (rand 30 c) on_unload))
               (rand 30 c)
               { initialRecord text (reply_markup.getD []) now (ttlAsInt ttl)
                   force_me (always_allow.getD []) (rand 30 c) on_unload with
                 chat := some pm.1, message_id := some pm.2 })
             (rand 30 c),
           c + 1)
        else
          (.ok (rand 30 c),
           storeSet
             (storeSet st (rand 30 c)
               (initialRecord text (reply_markup.getD []) now (ttlAsInt ttl)
                 force_me (always_allow.getD []) (rand 30 c) on_unload))
             (rand 30 c)
             { initialRecord text (reply_markup.getD []) now (ttlAsInt ttl)
                 force_me (always_allow.getD []) (rand 30 c) on_unload with
               chat := some pm.1, message_id := some pm.2 },
           c + 1)

/-- Annotation pass of `_generate_markup` on one button (lines 193-198 of
form.py): a `callback` button missing `_callback_data` gets a fresh
30-character token, then an `input` button missing `_switch_query` gets a
fresh 10-character token. -/
def annotateButton (b : Button) (c : Nat) : Button × Nat :=
  if b.callback = true ∧ b.callback_data = none then
    if b.input.isSome = true ∧ b.switch_query = none then
      ({ b with callback_data := some (rand 30 c),
                switch_query := some (rand 10 (c + 1)) }, c + 2)
    else
      ({ b with callback_data := some (rand 30 c) }, c + 1)
  else
    if b.input.isSome = true ∧ b.switch_query = none then
      ({ b with switch_query := some (rand 10 c) }, c + 1)
    else (b, c)

/-- Annotation pass over a row, threading the token counter. -/
def annotateRow : List Button → Nat → List Button × Nat
  | [], c => ([], c)
  | b :: bs, c =>
      ((annotateButton b c).1 :: (annotateRow bs (annotateButton b c).2).1,
       (annotateRow bs (annotateButton b c).2).2)

/-- Annotation pass over the whole grid (first loop of `_generate_markup`). -/
def annotateGrid : Grid → Nat → Grid × Nat
  | [], c => ([], c)
  | r :: rs, c =>
      ((annotateRow r c).1 :: (annotateGrid rs (annotateRow r c).2).1,
       (annotateGrid rs (annotateRow r c).2).2)

/-- A transport-native `InlineKeyboardButton`. -/
inductive TButton
  | link (text u : String)
  | cb (text d : String)
  | switch (text q : String)
deriving DecidableEq, Repr

/-- Build pass of `_generate_markup` on one button (lines 204-246 of
form.py).  `.error` models the `KeyError` caught at line 240 (missing
`text`, or a missing correlation token), which aborts the whole markup;
`.ok none` is the dropped, warn-only button of line 234. -/
def buildButton (b : Button) : Except Unit (Option TButton) :=
  if b.url.isSome then
    match b.text, b.url with
    | some t, some u => .ok (some (.link t u))
    | _, _ => .error ()
  else if b.callback then
    match b.text, b.callback_data with
    | some t, some d => .ok (some (.cb t d))
    | _, _ => .error ()
  else if b.input.isSome then
    match b.text, b.switch_query with
    | some t, some q => .ok (some (.switch t (q ++ " ")))
    | _, _ => .error ()
  else
    match b.data with
    | some d =>
        match b.text with
        | some t => .ok (some (.cb t d))
        | none => .error ()
    | none => .ok none

/-- Build pass over one row: dropped buttons are skipped, a raising button
aborts the whole generation. -/
def buildRow : List Button → Except Unit (List TButton)
  | [] => .ok []
  | b :: bs => do
      let o ← buildButton b
      let rest ← buildRow bs
      match o with
      | some tb => .ok (tb :: rest)
      | none => .ok rest

/-- Build pass over the grid; every row is added, even when empty. -/
def buildGrid : Grid → Except Unit (List (List TButton))
  | [] => .ok []
  | r :: rs => do
      let line ← buildRow r
      let rest ← buildGrid rs
      .ok (line :: rest)

/-- `_generate_markup(form_uid)` with a string identifier (lines 186-250 of
form.py).  The annotation pass mutates the button dicts in place, hence the
store is returned re-annotated; a missing identifier raises `KeyError`
(`self._forms[form_uid]` at line 191), and a build failure returns the
Python literal `False`, modelled as `.ok none`. -/
def generateMarkup (st : Store) (c : Nat) (uid : String) :
    Except PyErr (Option (List (List TButton))) × Store × Nat :=
  match storeGet st uid with
  | none => (.error .keyError, st, c)
  | some r =>
      match buildGrid (annotateGrid r.buttons c).1 with
      | .error _ =>
          (.ok none,
           storeSet st uid { r with buttons := (annotateGrid r.buttons c).1 },
           (annotateGrid r.buttons c).2)
      | .ok m =>
          (.ok (some m),
           storeSet st uid { r with buttons := (annotateGrid r.buttons c).1 },
           (annotateGrid r.buttons c).2)

/-- One attempt outcome of `bot.edit_message_text` as seen by
`_callback_query_edit`. -/
inductive EditAttempt
  | ok
  | notModified
  | retryAfter (t : Nat)
  | messageIdInvalid
deriving DecidableEq, Repr

/-- How `_callback_query_edit` ends: `badText` is the returned `False` of
line 270, `edited` a successful transport edit, `ackNotModified` the
`MessageNotModified` path (silent acknowledgement, a failing
acknowledgement swallowed), `ackGone` the `MessageIdInvalid` path
(acknowledgement with an explanatory notice, a failing acknowledgement
swallowed). -/
inductive EditResult
  | badText
  | edited
  | ackNotModified
  | ackGone
deriving DecidableEq, Repr

/-- The `RetryAfter` recursion of lines 294-306 of form.py, folded over the
successive transport outcomes: the retry re-runs the merge and the markup
generation, but the record already holds the merged values and every token
is already annotated, so the re-run leaves the store and the counter
unchanged and only the final transport outcome matters.  An exhausted
outcome list stands for the transport eventually succeeding. -/
def editOutcome : List EditAttempt → EditResult
  | [] => .edited
  | .ok :: _ => .edited
  | .notModified :: _ => .ackNotModified
  | .messageIdInvalid :: _ => .ackGone
  | .retryAfter _ :: rest => editOutcome rest

/-- `_callback_query_edit` (lines 252-315 of form.py).  `text` is `none`
when the caller passed a non-string (line 268); `reply_markup = none` is the
omitted argument, normalized to `[]` at line 266 and therefore a list.  The
caller passes the record looked up under `uid`; when the record has
vanished, the merge of lines 272-277 lands on the stale dict (no store
effect) and `_generate_markup` raises `KeyError`, which none of the three
except clauses catches. -/
def callbackQueryEdit (st : Store) (c : Nat) (uid : String)
    (text : Option String) (reply_markup : Option Grid)
    (force_me : Option Bool) (always_allow : Option (List Int))
    (attempts : List EditAttempt) : Except PyErr EditResult × Store × Nat :=
  match text with
  | none => (.ok .badText, st, c)
  | some _ =>
      match storeGet st uid with
      | some r =>
          match
            generateMarkup
              (storeSet st uid
                { r with
                  buttons := reply_markup.getD []
                  force_me := force_me.getD r.force_me
                  always_allow := always_allow.getD r.always_allow })
              c uid with
          | (.error e, st2, c2) => (.error e, st2, c2)
          | (.ok _, st2, c2) => (.ok (editOutcome attempts), st2, c2)
      | none =>
          match generateMarkup st c uid with
          | (.error e, st2, c2) => (.error e, st2, c2)
          | (.ok _, st2, c2) => (.ok (editOutcome attempts), st2, c2)

/-- `_callback_query_delete` (lines 317-333 of form.py).  `deleteMsgOk` is
the outcome of `self._client.delete_messages` on the (possibly stale)
record the router passed; the hook lookup goes through the store again
(`self._forms[form_uid]`), so a vanished record raises `KeyError` inside
the guard and the call reports `False` without touching the hook.  `log`
collects the identifiers whose hook was invoked, in order; a raising hook
still counts as invoked but aborts before the record is removed. -/
def callbackQueryDelete (st : Store) (log : List String) (uid : String)
    (deleteMsgOk : Bool) : Bool × Store × List String :=
  if deleteMsgOk = false then (false, st, log)
  else
    match storeGet st uid with
    | none => (false, st, log)
    | some r =>
        match r.on_unload with
        | none => (true, storeDel st uid, log)
        | some h =>
            if h.raises then (false, st, log ++ [uid])
            else (true, storeDel st uid, log ++ [uid])

/-- `_callback_query_unload` (lines 335-345 of form.py): like delete but
without the transport call. -/
def callbackQueryUnload (st : Store) (log : List String) (uid : String) :
    Bool × Store × List String :=
  match storeGet st uid with
  | none => (false, st, log)
  | some r =>
      match r.on_unload with
      | none => (true, storeDel st uid, log)
      | some h =>
          if h.raises then (false, st, log ++ [uid])
          else (true, storeDel st uid, log ++ [uid])

/-- One teardown step aimed at a fixed identifier: a delete (with its
transport outcome) or an unload. -/
inductive FormOp
  | del (ok : Bool)
  | unload
deriving DecidableEq, Repr

/-- Run a sequence of delete/unload operations against one identifier,
threading the store and the hook-invocation log. -/
def runOps (st : Store) (log : List String) (uid : String) :
    List FormOp → Store × List String
  | [] => (st, log)
  | .del ok :: rest =>
      runOps (callbackQueryDelete st log uid ok).2.1
        (callbackQueryDelete st log uid ok).2.2 uid rest
  | .unload :: rest =>
      runOps (callbackQueryUnload st log uid).2.1
        (callbackQueryUnload st log uid).2.2 uid rest

/-- The fixed environment of the inline handler: `self._me` and
`self._client.dispatcher.security._owner`. -/
structure Env where
  me : Int
  owners : List Int
deriving Repr

/-- Line 355-357 of form.py: `[self._me] +
self._client.dispatcher.security._owner + form["always_allow"]`. -/
def authUsers (env : Env) (f : FormRecord) : List Int :=
  env.me :: (env.owners ++ f.always_allow)

/-- Helper for `pySplit`: walk the characters, `acc` holding the reversed
current word. -/
def wordsAux : List Char → List Char → List String
  | [], acc => if acc = [] then [] else [String.mk acc.reverse]
  | ch :: rest, acc =>
      if ch = ' ' then
        if acc = [] then wordsAux rest []
        else String.mk acc.reverse :: wordsAux rest []
      else wordsAux rest (ch :: acc)

/-- Python `str.split()` restricted to spaces: split on runs of spaces and
drop empty words (so the empty query yields the empty list, on which the
`[0]` of line 353 raises `IndexError`). -/
def pySplit (s : String) : List String :=
  wordsAux s.data []

/-- An inbound `InlineQuery`: its text and the requesting user id. -/
structure InlineQuery where
  query : String
  from_user : Int
deriving DecidableEq, Repr

/-- One `InlineQueryResultArticle` as answered by the handler. -/
structure QueryResult where
  id : String
  title : String
  description : Option String
  content : String
  markup : Option (List (List TButton))
deriving DecidableEq, Repr

/-- The fixed `InputTextMessageContent` text of the input-capture card
(lines 366-367 of form.py). -/
def transferringText : String :=
  "🔄 <b>Transferring value to userbot...</b>\n" ++
  "<i>This message is gonna be deleted...</i>"

/-- The fixed description of the input-capture card (line 364 of form.py). -/
def warnText : String := "⚠️ Please, do not remove identifier!"

/-- The input-capture result card (lines 360-372 of form.py), built when the
token counter is `c`. -/
def inputCard (c : Nat) (b : Button) : QueryResult :=
  { id := rand 20 c
    title := b.input.getD ""
    description := some warnText
    content := transferringText
    markup := none }

/-- The button scan of lines 349-358 of form.py over the flattened buttons
of one form.  The conjunction short-circuits, so `query.split()[0]` is only
evaluated once a button with both `_switch_query` and `input` is reached,
and raises `IndexError` when the query has no words. -/
def scanButtons (env : Env) (f : FormRecord) (user : Int) (q : String) :
    List Button → Except PyErr (Option Button)
  | [] => .ok none
  | b :: bs =>
      if b.switch_query.isSome && b.input.isSome then
        match pySplit q with
        | [] => .error .indexError
        | w :: _ =>
            if b.switch_query = some w ∧ user ∈ authUsers env f then
              .ok (some b)
            else scanButtons env f user q bs
      else scanButtons env f user q bs

/-- The form scan of line 348 of form.py, in store order; the first matching
button wins. -/
def scanForms (env : Env) (user : Int) (q : String) :
    List FormRecord → Except PyErr (Option Button)
  | [] => .ok none
  | f :: fs =>
      match scanButtons env f user q f.buttons.flatten with
      | .error e => .error e
      | .ok (some b) => .ok (some b)
      | .ok none => scanForms env user q fs

/-- `_form_inline_handler` (lines 347-395 of form.py).  An input-button
match answers a single input-capture card and returns at once; otherwise a
query text that is a live form identifier answers that form (the argument
order of lines 383-391 draws the result id before the markup is generated);
any other query is left unanswered. -/
def formInlineHandler (env : Env) (st : Store) (c : Nat) (q : InlineQuery) :
    Except PyErr (Option (List QueryResult)) × Store × Nat :=
  match scanForms env q.from_user q.query (st.map Prod.snd) with
  | .error e => (.error e, st, c)
  | .ok (some b) => (.ok (some [inputCard c b]), st, c + 1)
  | .ok none =>
      match storeGet st q.query with
      | none => (.ok none, st, c)
      | some r =>
          match generateMarkup st (c + 1) q.query with
          | (.error e, st2, c2) => (.error e, st2, c2)
          | (.ok m, st2, c2) =>
              (.ok (some [{ id := rand 20 c
                            title := "Hikka"
                            description := none
                            content := r.text
                            markup := m }]),
               st2, c2)

/-- A concrete callback button spec, for witnesses. -/
def cbButton : Button := { text := some "click", callback := true }

/-- A concrete url button spec, for witnesses. -/
def urlButton : Button := { text := some "open", url := some "https://example.com" }

/-- A concrete input button spec already annotated with its switch token,
for witnesses. -/
def inputButton : Button :=
  { text := some "fill", input := some "Enter value",
    switch_query := some "abcdefghij" }

/-- A concrete live form record holding one annotated input button, for
witnesses. -/
def inputFormRec : FormRecord :=
  { text := "pick"
    buttons := [[inputButton]]
    ttl := 86400
    force_me := true
    always_allow := [42]
    chat := some 1
    message_id := some 2
    uid := "F"
    on_unload := none }

/-- A concrete form record with url buttons only, for counterexamples. -/
def urlFormRec : FormRecord :=
  { text := "card"
    buttons := [[urlButton]]
    ttl := 86400
    force_me := true
    always_allow := []
    chat := some 1
    message_id := some 2
    uid := "F"
    on_unload := none }

/-- A concrete form record whose unload hook raises, for counterexamples. -/
def raisingHookRec : FormRecord :=
  { text := "boom"
    buttons := [[cbButton]]
    ttl := 86400
    force_me := true
    always_allow := []
    chat := some 1
    message_id := some 2
    uid := "F"
    on_unload := some { raises := true } }

/-- A concrete form record whose unload hook returns normally, for
witnesses. -/
def okHookRec : FormRecord :=
  { text := "fine"
    buttons := [[cbButton]]
    ttl := 86400
    force_me := true
    always_allow := []
    chat := some 1
    message_id := some 2
    uid := "F"
    on_unload := some { raises := false } }

/-- The record a concrete successful creation call leaves in the store when
called with the default ttl `False` at time 100, for witnesses. -/
def wRecC1 : FormRecord :=
  { text := "t"
    buttons := [[cbButton]]
    ttl := 86500
    force_me := true
    always_allow := []
    chat := some 7
    message_id := some 3
    uid := rand 30 0
    on_unload := none }

theorem storeGet_set_self (st : Store) (k : String) (v : FormRecord) :
    storeGet (storeSet st k v) k = some v := by
  induction st with
  | nil => simp [storeSet, storeGet]
  | cons p rest ih =>
      by_cases h : p.1 = k
      · simp [storeSet, storeGet, h]
      · simp [storeSet, storeGet, h, ih]

theorem storeGet_del_self (st : Store) (k : String) :
    storeGet (storeDel st k) k = none := by
  induction st with
  | nil => rfl
  | cons p rest ih =>
      by_cases h : p.1 = k
      · simp [storeDel, h, ih]
      · simp [storeDel, storeGet, h, ih]

theorem rand_length (len k : Nat) : (rand len k).length = len := by
  simp [rand, String.length]

theorem clampTtl_ge (t : Int) : 10 ≤ clampTtl t := by
  unfold clampTtl markup_ttl
  split <;> omega

theorem clampTtl_le (t : Int) : clampTtl t ≤ markup_ttl := by
  unfold clampTtl markup_ttl
  split <;> omega

theorem storedTtl_of_ge (now : Nat) (t : Int) (h : 10 ≤ t) :
    storedTtl now t = (now : Int) + t := by
  unfold storedTtl
  rw [if_neg]
  omega

/-- On every successful creation whose identifier is still in the returned
store, the stored record carries the ttl stamp of line 138 of form.py. -/
theorem formCreate_ok_ttl (st : Store) (c now : Nat) (text : String)
    (msg : Target) (rm : Option Grid) (fm : Bool) (aa : Option (List Int))
    (ttl : TtlArg) (ou : Option Hook) (click : Option (Int × Nat))
    (uid : String) (st' : Store) (c' : Nat) (r : FormRecord)
    (hcreate : formCreate st c now text msg rm fm aa ttl ou click =
      (.ok uid, st', c'))
    (hget : storeGet st' uid = some r) :
    r.ttl = storedTtl now (clampTtl (ttlAsInt ttl)) := by
  by_cases hg : gridValid (rm.getD []) = false
  · simp [formCreate, hg] at hcreate
  · cases click with
    | none => simp [formCreate, hg] at hcreate
    | some pm =>
        by_cases hi : hasInteractive (rm.getD []) = false
        · simp [formCreate, hg, hi] at hcreate
          obtain ⟨h1, h2, h3⟩ := hcreate
          subst h1
          subst h2
          rw [storeGet_del_self] at hget
          cases hget
        · simp [formCreate, hg, hi] at hcreate
          obtain ⟨h1, h2, h3⟩ := hcreate
          subst h1
          subst h2
          rw [storeGet_set_self] at hget
          injection hget with hr
          subst hr
          rfl

/-- C1: every form record registered in the Store by a successful create has
its absolute ttl expiry in the window from now plus 10 to now plus the
maximum ttl, and any integer ttl outside the window from 10 to the maximum,
as well as the default ttl `False`, silently falls back to the maximum, so
the stored expiry equals now plus 86400 seconds in those cases. -/
theorem ttl_invariant_C1 (st : Store) (c now : Nat) (text : String)
    (msg : Target) (rm : Option Grid) (fm : Bool) (aa : Option (List Int))
    (ttl : TtlArg) (ou : Option Hook) (click : Option (Int × Nat))
    (uid : String) (st' : Store) (c' : Nat) (r : FormRecord)
    (hcreate : formCreate st c now text msg rm fm aa ttl ou click =
      (.ok uid, st', c'))
    (hget : storeGet st' uid = some r) :
    ((now : Int) + 10 ≤ r.ttl ∧ r.ttl ≤ (now : Int) + markup_ttl)
    ∧ ((ttlAsInt ttl < 10 ∨ markup_ttl < ttlAsInt ttl) →
        r.ttl = (now : Int) + 86400) := by
  have h := formCreate_ok_ttl st c now text msg rm fm aa ttl ou click
    uid st' c' r hcreate hget
  have h1 := clampTtl_ge (ttlAsInt ttl)
  have h2 := clampTtl_le (ttlAsInt ttl)
  constructor
  · rw [h, storedTtl_of_ge now _ h1]
    unfold markup_ttl at h2 ⊢
    omega
  · intro hout
    have hc : clampTtl (ttlAsInt ttl) = markup_ttl := by
      unfold clampTtl
      rw [if_pos]
      omega
    rw [h, hc, storedTtl_of_ge now markup_ttl (by unfold markup_ttl; omega)]
    rfl

theorem ttl_invariant_C1_witness :
    formCreate [] 0 100 "t" (.chat 5) (some [[cbButton]]) true none
      (.bool false) none (some (7, 3)) =
      (.ok (rand 30 0), [(rand 30 0, wRecC1)], 1)
    ∧ storeGet [(rand 30 0, wRecC1)] (rand 30 0) = some wRecC1
    ∧ (((100 : Int) + 10 ≤ wRecC1.ttl ∧ wRecC1.ttl ≤ (100 : Int) + markup_ttl)
       ∧ ((ttlAsInt (.bool false) < 10 ∨ markup_ttl < ttlAsInt (.bool false)) →
           wRecC1.ttl = (100 : Int) + 86400)) :=
  ⟨by decide, by decide,
   ttl_invariant_C1 [] 0 100 "t" (.chat 5) (some [[cbButton]]) true none
     (.bool false) none (some (7, 3)) (rand 30 0) [(rand 30 0, wRecC1)] 1
     wRecC1 (by decide) (by decide)⟩

/-- C5 counterexample: creating with ttl 5 at time 1000 stores the expiry
87400 (the 24-hour fallback), not the 1010 the claimed clamp-to-minimum
would give. -/
theorem ttl_min_cex_C5 :
    (storeGet (formCreate [] 0 1000 "t" (.chat 5) (some [[cbButton]]) true
        none (.int 5) none (some (7, 3))).2.1 (rand 30 0)).map
      FormRecord.ttl = some 87400
    ∧ (87400 : Int) ≠ 1000 + 10 := by
  constructor
  · decide
  · decide

/-- C5 amended: a create call with ttl 5 and one with ttl 999999 both fall
back to the configured default and maximum of 86400 seconds, so the stored
record expires at now plus 86400; neither value is clamped to the minimum
of 10. -/
theorem ttl_fallback_C5 (st : Store) (c now : Nat) (text : String)
    (msg : Target) (rm : Option Grid) (fm : Bool) (aa : Option (List Int))
    (ou : Option Hook) (click : Option (Int × Nat)) (t : TtlArg)
    (uid : String) (st' : Store) (c' : Nat) (r : FormRecord)
    (ht : t = .int 5 ∨ t = .int 999999)
    (hcreate : formCreate st c now text msg rm fm aa t ou click =
      (.ok uid, st', c'))
    (hget : storeGet st' uid = some r) :
    r.ttl = (now : Int) + 86400 := by
  have h := formCreate_ok_ttl st c now text msg rm fm aa t ou click
    uid st' c' r hcreate hget
  have hc : clampTtl (ttlAsInt t) = 86400 := by
    rcases ht with rfl | rfl <;> decide
  rw [h, hc, storedTtl_of_ge now 86400 (by omega)]

theorem ttl_fallback_C5_witness :
    ((TtlArg.int 5) = .int 5 ∨ (TtlArg.int 5) = .int 999999)
    ∧ formCreate [] 0 1000 "t" (.chat 5) (some [[cbButton]]) true none
        (.int 5) none (some (7, 3)) =
      (.ok (rand 30 0), [(rand 30 0, { wRecC1 with ttl := 87400 })], 1)
    ∧ storeGet [(rand 30 0, { wRecC1 with ttl := 87400 })] (rand 30 0) =
        some { wRecC1 with ttl := 87400 }
    ∧ ({ wRecC1 with ttl := 87400 } : FormRecord).ttl = (1000 : Int) + 86400 :=
  ⟨Or.inl rfl, by decide, by decide,
   ttl_fallback_C5 [] 0 1000 "t" (.chat 5) (some [[cbButton]]) true none
     none (some (7, 3)) (.int 5) (rand 30 0)
     [(rand 30 0, { wRecC1 with ttl := 87400 })] 1
     { wRecC1 with ttl := 87400 } (Or.inl rfl) (by decide) (by decide)⟩

/-- C6: when the transport raises during materialization, the provisional
record is removed, the error notice goes to the target through the channel
lines 163-166 pick, and the call returns the failure value: no record for
the generated identifier remains in the store. -/
theorem create_fail_cleanup_C6 (st : Store) (c now : Nat) (text : String)
    (msg : Target) (rm : Option Grid) (fm : Bool) (aa : Option (List Int))
    (ttl : TtlArg) (ou : Option Hook)
    (hg : gridValid (rm.getD []) = true) :
    (formCreate st c now text msg rm fm aa ttl ou none).1 =
      .transportFail (noticeFor msg)
    ∧ storeGet (formCreate st c now text msg rm fm aa ttl ou none).2.1
        (rand 30 c) = none := by
  constructor <;> simp [formCreate, hg, storeGet_del_self]

theorem create_fail_cleanup_C6_witness :
    gridValid ((some [[cbButton]] : Option Grid).getD []) = true
    ∧ ((formCreate [] 0 100 "t" (.message 5 none true) (some [[cbButton]])
          true none (.bool false) none none).1 =
        .transportFail (noticeFor (.message 5 none true))
       ∧ storeGet (formCreate [] 0 100 "t" (.message 5 none true)
          (some [[cbButton]]) true none (.bool false) none none).2.1
          (rand 30 0) = none) :=
  ⟨by decide,
   create_fail_cleanup_C6 [] 0 100 "t" (.message 5 none true)
     (some [[cbButton]]) true none (.bool false) none (by decide)⟩

/-- C7: a successful create over a grid with no callback or input button
still returns the 30-character identifier, yet the record is deleted from
the store before the call returns. -/
theorem url_only_create_C7 (st : Store) (c now : Nat) (text : String)
    (msg : Target) (g : Grid) (fm : Bool) (aa : Option (List Int))
    (ttl : TtlArg) (ou : Option Hook) (ch : Int) (mid : Nat)
    (hg : gridValid g = true) (hi : hasInteractive g = false) :
    (formCreate st c now text msg (some g) fm aa ttl ou (some (ch, mid))).1 =
      .ok (rand 30 c)
    ∧ (rand 30 c).length = 30
    ∧ storeGet (formCreate st c now text msg (some g) fm aa ttl ou
        (some (ch, mid))).2.1 (rand 30 c) = none := by
  refine ⟨?_, rand_length 30 c, ?_⟩ <;>
    simp [formCreate, hg, hi, storeGet_del_self]

theorem url_only_create_C7_witness :
    gridValid [[urlButton]] = true
    ∧ hasInteractive [[urlButton]] = false
    ∧ ((formCreate [] 0 100 "t" (.chat 5) (some [[urlButton]]) true none
          (.bool false) none (some (7, 3))).1 = .ok (rand 30 0)
       ∧ (rand 30 0).length = 30
       ∧ storeGet (formCreate [] 0 100 "t" (.chat 5) (some [[urlButton]])
           true none (.bool false) none (some (7, 3))).2.1 (rand 30 0) =
           none) :=
  ⟨by decide, by decide,
   url_only_create_C7 [] 0 100 "t" (.chat 5) [[urlButton]] true none
     (.bool false) none 7 3 (by decide) (by decide)⟩

theorem annotateButton_idem (b : Button) (c c' : Nat) :
    annotateButton (annotateButton b c).1 c' = ((annotateButton b c).1, c') := by
  unfold annotateButton
  by_cases h1 : b.callback = true ∧ b.callback_data = none
  · by_cases h2 : b.input.isSome = true ∧ b.switch_query = none
    · simp [h1, h2]
    · simp [h1, h2]
  · by_cases h2 : b.input.isSome = true ∧ b.switch_query = none
    · simp [h1, h2]
    · simp [h1, h2]

theorem annotateRow_idem (row : List Button) (c c' : Nat) :
    annotateRow (annotateRow row c).1 c' = ((annotateRow row c).1, c') := by
  induction row generalizing c c' with
  | nil => rfl
  | cons b bs ih => simp [annotateRow, annotateButton_idem, ih]

theorem annotateGrid_idem (g : Grid) (c c' : Nat) :
    annotateGrid (annotateGrid g c).1 c' = ((annotateGrid g c).1, c') := by
  induction g generalizing c c' with
  | nil => rfl
  | cons r rs ih => simp [annotateGrid, annotateRow_idem, ih]

theorem annotateGrid_append (g1 g2 : Grid) (c : Nat) :
    annotateGrid (g1 ++ g2) c =
      ((annotateGrid g1 c).1 ++ (annotateGrid g2 (annotateGrid g1 c).2).1,
       (annotateGrid g2 (annotateGrid g1 c).2).2) := by
  induction g1 generalizing c with
  | nil => simp [annotateGrid]
  | cons r rs ih => simp [annotateGrid, ih]

/-- C8: the annotation pass is idempotent — re-annotating an annotated grid
changes nothing and draws no token, a grid extended by a new button keeps
every existing token and only the new button is annotated, an existing
token is never overwritten, and a missing token is filled with a fresh
30-character (callback) or 10-character (input) token. -/
theorem annotate_idem_C8 (g : Grid) (b : Button) (c c' c'' : Nat) :
    (annotateGrid (annotateGrid g c).1 c' = ((annotateGrid g c).1, c'))
    ∧ (annotateGrid ((annotateGrid g c).1 ++ [[b]]) c'' =
        ((annotateGrid g c).1 ++ [[(annotateButton b c'').1]],
         (annotateButton b c'').2))
    ∧ (∀ t, b.callback_data = some t →
        (annotateButton b c'').1.callback_data = some t)
    ∧ (∀ t, b.switch_query = some t →
        (annotateButton b c'').1.switch_query = some t)
    ∧ (b.callback = true → b.callback_data = none →
        (annotateButton b c'').1.callback_data = some (rand 30 c'')
        ∧ (rand 30 c'').length = 30)
    ∧ (b.callback = false → b.input.isSome = true → b.switch_query = none →
        (annotateButton b c'').1.switch_query = some (rand 10 c'')
        ∧ (rand 10 c'').length = 10) := by
  refine ⟨annotateGrid_idem g c c', ?_, ?_, ?_, ?_, ?_⟩
  · rw [annotateGrid_append, annotateGrid_idem]
    simp [annotateGrid, annotateRow]
  · intro t ht
    unfold annotateButton
    rw [if_neg (by simp [ht])]
    split <;> simp [ht]
  · intro t ht
    unfold annotateButton
    by_cases h1 : b.callback = true ∧ b.callback_data = none
    · simp [h1, ht]
    · simp [h1, ht]
  · intro hc hd
    unfold annotateButton
    rw [if_pos ⟨hc, hd⟩]
    refine ⟨?_, rand_length 30 c''⟩
    split <;> rfl
  · intro hc hin hsw
    unfold annotateButton
    rw [if_neg (by simp [hc])]
    rw [if_pos ⟨hin, hsw⟩]
    exact ⟨rfl, rand_length 10 c''⟩

theorem annotate_idem_C8_witness :
    (annotateGrid (annotateGrid [[cbButton]] 0).1 1 =
      ((annotateGrid [[cbButton]] 0).1, 1))
    ∧ (cbButton.callback = true ∧ cbButton.callback_data = none)
    ∧ ((annotateButton cbButton 2).1.callback_data = some (rand 30 2)
       ∧ (rand 30 2).length = 30) :=
  ⟨(annotate_idem_C8 [[cbButton]] cbButton 0 1 2).1, ⟨by decide, by decide⟩,
   (annotate_idem_C8 [[cbButton]] cbButton 0 1 2).2.2.2.2.1 (by decide)
     (by decide)⟩

/-- C2 counterexample: editing a live form with valid text and the grid
argument omitted resets the record buttons to the empty list — they are not
left unchanged, because the omitted grid is normalized to `[]`, which is a
list and is therefore merged. -/
theorem edit_omitted_cex_C2 :
    (storeGet (callbackQueryEdit [("F", urlFormRec)] 0 "F" (some "new") none
        none none [.ok]).2.1 "F").map FormRecord.buttons = some []
    ∧ urlFormRec.buttons ≠ ([] : Grid) := by
  constructor
  · decide
  · decide

/-- C2 amended: an edit with valid text and the optional grid, force-me and
always-allow arguments all omitted leaves force-me and always-allow
unchanged (omitted flags are silently ignored), but the omitted grid is
normalized to the empty list and merged, so the record buttons become
empty rather than staying unchanged. -/
theorem edit_omitted_C2 (st : Store) (c : Nat) (uid text : String)
    (attempts : List EditAttempt) (r : FormRecord)
    (hget : storeGet st uid = some r) :
    storeGet (callbackQueryEdit st c uid (some text) none none none
        attempts).2.1 uid = some { r with buttons := [] } := by
  simp [callbackQueryEdit, hget, generateMarkup, storeGet_set_self,
    annotateGrid, buildGrid]

theorem edit_omitted_C2_witness :
    storeGet [("F", urlFormRec)] "F" = some urlFormRec
    ∧ storeGet (callbackQueryEdit [("F", urlFormRec)] 0 "F" (some "new") none
        none none [.ok]).2.1 "F" = some { urlFormRec with buttons := [] } :=
  ⟨by decide,
   edit_omitted_C2 [("F", urlFormRec)] 0 "F" "new" [.ok] urlFormRec
     (by decide)⟩

/-- C10: an edit with grid, force-me and always-allow all supplied writes
the new values into the record before the transport edit, and when the
transport then fails permanently with message-gone the call still ends
normally on the acknowledgement path and the record permanently keeps the
new values (the buttons as annotated by the markup generation) — the
mutation is not rolled back. -/
theorem edit_no_rollback_C10 (st : Store) (c : Nat) (uid text : String)
    (g : Grid) (fm : Bool) (aa : List Int) (r : FormRecord)
    (hget : storeGet st uid = some r) :
    (callbackQueryEdit st c uid (some text) (some g) (some fm) (some aa)
        [.messageIdInvalid]).1 = .ok .ackGone
    ∧ storeGet (callbackQueryEdit st c uid (some text) (some g) (some fm)
        (some aa) [.messageIdInvalid]).2.1 uid =
      some { r with buttons := (annotateGrid g c).1, force_me := fm,
                    always_allow := aa } := by
  cases hbuild : buildGrid (annotateGrid g c).1 <;>
    constructor <;>
      simp [callbackQueryEdit, hget, generateMarkup, storeGet_set_self,
        hbuild, editOutcome]

theorem edit_no_rollback_C10_witness :
    storeGet [("F", urlFormRec)] "F" = some urlFormRec
    ∧ ((callbackQueryEdit [("F", urlFormRec)] 0 "F" (some "n")
          (some [[cbButton]]) (some false) (some [7])
          [.messageIdInvalid]).1 = .ok .ackGone
       ∧ storeGet (callbackQueryEdit [("F", urlFormRec)] 0 "F" (some "n")
           (some [[cbButton]]) (some false) (some [7])
           [.messageIdInvalid]).2.1 "F" =
         some { urlFormRec with buttons := (annotateGrid [[cbButton]] 0).1,
                                force_me := false, always_allow := [7] }) :=
  ⟨by decide,
   edit_no_rollback_C10 [("F", urlFormRec)] 0 "F" "n" [[cbButton]] false [7]
     urlFormRec (by decide)⟩

theorem scanButtons_unauth (env : Env) (f : FormRecord) (user : Int)
    (q w : String) (ws : List String) (hw : pySplit q = w :: ws)
    (hu : user ∉ authUsers env f) :
    ∀ bs, scanButtons env f user q bs = .ok none := by
  intro bs
  induction bs with
  | nil => rfl
  | cons b bs ih =>
      by_cases hc : (b.switch_query.isSome && b.input.isSome) = true
      · simp only [scanButtons, hc, if_true, hw]
        rw [if_neg fun hp => hu hp.2]
        exact ih
      · simp only [scanButtons, hc, if_false]
        exact ih

theorem scanForms_unauth (env : Env) (user : Int) (q w : String)
    (ws : List String) (hw : pySplit q = w :: ws) :
    ∀ forms : List FormRecord, (∀ f ∈ forms, user ∉ authUsers env f) →
      scanForms env user q forms = .ok none := by
  intro forms
  induction forms with
  | nil => intro _; rfl
  | cons f fs ih =>
      intro hu
      simp only [scanForms,
        scanButtons_unauth env f user q w ws hw (hu f (by simp))]
      exact ih fun f2 h2 => hu f2 (by simp [h2])

/-- C3 amended: when the inline-query scan finds a matching authorized
input button, the handler answers exactly one result card and returns at
once with the store untouched (no default-form matching); but the message
content of that card is the fixed transferring placeholder, with the button
input label as title, not the captured value `hello world`.  A requester
not authorized for any live form gets no input-button match. -/
theorem inline_input_card_C3 (env : Env) (st : Store) (c : Nat) (user : Int)
    (q : String) :
    (∀ b, scanForms env user q (st.map Prod.snd) = .ok (some b) →
      formInlineHandler env st c { query := q, from_user := user } =
        (.ok (some [inputCard c b]), st, c + 1)
      ∧ (inputCard c b).content = transferringText
      ∧ transferringText ≠ "hello world")
    ∧ (∀ w ws, pySplit q = w :: ws →
        (∀ f ∈ st.map Prod.snd, user ∉ authUsers env f) →
        scanForms env user q (st.map Prod.snd) = .ok none) := by
  constructor
  · intro b hb
    refine ⟨?_, rfl, by decide⟩
    simp [formInlineHandler, hb]
  · intro w ws hw hu
    exact scanForms_unauth env user q w ws hw _ hu

theorem inline_input_card_C3_witness :
    scanForms ⟨10, []⟩ 10 "abcdefghij hello world" [inputFormRec] =
      .ok (some inputButton)
    ∧ (formInlineHandler ⟨10, []⟩ [("F", inputFormRec)] 0
         { query := "abcdefghij hello world", from_user := 10 } =
        (.ok (some [inputCard 0 inputButton]), [("F", inputFormRec)], 1)
       ∧ (inputCard 0 inputButton).content = transferringText
       ∧ transferringText ≠ "hello world")
    ∧ (pySplit "abcdefghij hello world" =
        "abcdefghij" :: ["hello", "world"]
       ∧ (∀ f ∈ [inputFormRec], (99 : Int) ∉ authUsers ⟨10, []⟩ f)
       ∧ scanForms ⟨10, []⟩ 99 "abcdefghij hello world" [inputFormRec] =
           .ok none) :=
  ⟨by rfl,
   (inline_input_card_C3 ⟨10, []⟩ [("F", inputFormRec)] 0 10
      "abcdefghij hello world").1 inputButton (by rfl),
   by rfl, by decide,
   (inline_input_card_C3 ⟨10, []⟩ [("F", inputFormRec)] 0 99
      "abcdefghij hello world").2 "abcdefghij" ["hello", "world"] (by rfl)
     (by decide)⟩

/-- C3 counterexample: a concrete authorized inline query whose text is the
input token followed by `hello world` is answered with exactly one result,
and the message content of that result is the fixed transferring
placeholder, not `hello world`. -/
theorem inline_input_cex_C3 :
    (formInlineHandler ⟨10, []⟩ [("F", inputFormRec)] 0
        { query := "abcdefghij hello world", from_user := 10 }).1 =
      .ok (some [inputCard 0 inputButton])
    ∧ (inputCard 0 inputButton).content ≠ "hello world" := by
  constructor
  · rfl
  · decide

/-- C4: two boundary entry points do propagate an unhandled exception —
the inline handler raises `IndexError` on the empty query text as soon as
the store holds a form with an annotated input button (line 353 of form.py
evaluates `split()[0]` on the empty word list), and the edit operation
raises `KeyError` when the form record has disappeared from the store
before `_generate_markup` is invoked (line 191), because none of the three
except clauses of `_callback_query_edit` catches it. -/
theorem boundary_raises_C4 :
    (formInlineHandler ⟨10, []⟩ [("F", inputFormRec)] 0
        { query := "", from_user := 10 }).1 = .error .indexError
    ∧ (callbackQueryEdit [] 0 "gone" (some "hi") none none none []).1 =
      .error .keyError :=
  ⟨rfl, rfl⟩

theorem step_inv_delete (uid : String) (st : Store) (log : List String)
    (ok : Bool)
    (hs : ∀ r h, storeGet st uid = some r → r.on_unload = some h →
      h.raises = false)
    (hinv : log.count uid +
      (if (storeGet st uid).isSome then 1 else 0) ≤ 1) :
    (∀ r h,
      storeGet (callbackQueryDelete st log uid ok).2.1 uid = some r →
        r.on_unload = some h → h.raises = false)
    ∧ (callbackQueryDelete st log uid ok).2.2.count uid +
        (if (storeGet (callbackQueryDelete st log uid ok).2.1 uid).isSome
          then 1 else 0) ≤ 1 := by
  cases ok with
  | false =>
      have h1 : callbackQueryDelete st log uid false = (false, st, log) := by
        simp [callbackQueryDelete]
      rw [h1]
      exact ⟨hs, hinv⟩
  | true =>
      cases hg : storeGet st uid with
      | none =>
          have h1 : callbackQueryDelete st log uid true = (false, st, log) := by
            simp [callbackQueryDelete, hg]
          rw [h1]
          exact ⟨hs, hinv⟩
      | some r =>
          cases ho : r.on_unload with
          | none =>
              have h1 : callbackQueryDelete st log uid true =
                  (true, storeDel st uid, log) := by
                simp [callbackQueryDelete, hg, ho]
              rw [h1]
              refine ⟨?_, ?_⟩
              · intro r2 h2 hr2 hh2
                rw [storeGet_del_self] at hr2
                simp at hr2
              · rw [storeGet_del_self]
                rw [hg] at hinv
                simp at hinv ⊢
                omega
          | some h =>
              have hf : h.raises = false := hs r h hg ho
              have h1 : callbackQueryDelete st log uid true =
                  (true, storeDel st uid, log ++ [uid]) := by
                simp [callbackQueryDelete, hg, ho, hf]
              rw [h1]
              refine ⟨?_, ?_⟩
              · intro r2 h2 hr2 hh2
                rw [storeGet_del_self] at hr2
                simp at hr2
              · rw [storeGet_del_self]
                rw [hg] at hinv
                simp [List.count_append] at hinv ⊢
                omega

theorem step_inv_unload (uid : String) (st : Store) (log : List String)
    (hs : ∀ r h, storeGet st uid = some r → r.on_unload = some h →
      h.raises = false)
    (hinv : log.count uid +
      (if (storeGet st uid).isSome then 1 else 0) ≤ 1) :
    (∀ r h,
      storeGet (callbackQueryUnload st log uid).2.1 uid = some r →
        r.on_unload = some h → h.raises = false)
    ∧ (callbackQueryUnload st log uid).2.2.count uid +
        (if (storeGet (callbackQueryUnload st log uid).2.1 uid).isSome
          then 1 else 0) ≤ 1 := by
  cases hg : storeGet st uid with
  | none =>
      have h1 : callbackQueryUnload st log uid = (false, st, log) := by
        simp [callbackQueryUnload, hg]
      rw [h1]
      exact ⟨hs, hinv⟩
  | some r =>
      cases ho : r.on_unload with
      | none =>
          have h1 : callbackQueryUnload st log uid =
              (true, storeDel st uid, log) := by
            simp [callbackQueryUnload, hg, ho]
          rw [h1]
          refine ⟨?_, ?_⟩
          · intro r2 h2 hr2 hh2
            rw [storeGet_del_self] at hr2
            simp at hr2
          · rw [storeGet_del_self]
            rw [hg] at hinv
            simp at hinv ⊢
            omega
      | some h =>
          have hf : h.raises = false := hs r h hg ho
          have h1 : callbackQueryUnload st log uid =
              (true, storeDel st uid, log ++ [uid]) := by
            simp [callbackQueryUnload, hg, ho, hf]
          rw [h1]
          refine ⟨?_, ?_⟩
          · intro r2 h2 hr2 hh2
            rw [storeGet_del_self] at hr2
            simp at hr2
          · rw [storeGet_del_self]
            rw [hg] at hinv
            simp [List.count_append] at hinv ⊢
            omega

theorem runOps_count_le (uid : String) (ops : List FormOp) :
    ∀ (st : Store) (log : List String),
      (∀ r h, storeGet st uid = some r → r.on_unload = some h →
        h.raises = false) →
      log.count uid + (if (storeGet st uid).isSome then 1 else 0) ≤ 1 →
      (runOps st log uid ops).2.count uid ≤ 1 := by
  induction ops with
  | nil =>
      intro st log hs hinv
      simp only [runOps]
      split at hinv <;> omega
  | cons op rest ih =>
      intro st log hs hinv
      cases op with
      | del ok =>
          have hstep := step_inv_delete uid st log ok hs hinv
          simp only [runOps]
          exact ih _ _ hstep.1 hstep.2
      | unload =>
          have hstep := step_inv_unload uid st log hs hinv
          simp only [runOps]
          exact ih _ _ hstep.1 hstep.2

/-- C9 amended: provided the unload hook of the form does not raise, the
hook is invoked at most once over any sequence of delete and unload
operations aimed at the identifier; and a delete on an identifier absent
from the store returns the failure value without raising and without
invoking the hook (state and log are untouched). -/
theorem unload_once_C9 (st : Store) (uid : String) (ops : List FormOp)
    (hs : ∀ r h, storeGet st uid = some r → r.on_unload = some h →
      h.raises = false) :
    (runOps st [] uid ops).2.count uid ≤ 1
    ∧ (∀ (log : List String) (ok : Bool), storeGet st uid = none →
        callbackQueryDelete st log uid ok = (false, st, log)) := by
  constructor
  · apply runOps_count_le uid ops st [] hs
    simp only [List.count_nil]
    split <;> omega
  · intro log ok hnone
    cases ok <;> simp [callbackQueryDelete, hnone]

theorem unload_once_C9_witness :
    (∀ r h, storeGet [("F", okHookRec)] "F" = some r →
      r.on_unload = some h → h.raises = false)
    ∧ ((runOps [("F", okHookRec)] [] "F" [.del true, .del true]).2.count "F"
        ≤ 1
       ∧ (∀ (log : List String) (ok : Bool),
           storeGet [("F", okHookRec)] "F" = none →
           callbackQueryDelete [("F", okHookRec)] log "F" ok =
             (false, [("F", okHookRec)], log))) := by
  have hs : ∀ r h, storeGet [("F", okHookRec)] "F" = some r →
      r.on_unload = some h → h.raises = false := by
    intro r h hr hh
    simp [storeGet] at hr
    subst hr
    simp [okHookRec] at hh
    rw [← hh]
  exact ⟨hs, unload_once_C9 [("F", okHookRec)] "F" [.del true, .del true] hs⟩

/-- C9 counterexample: a form whose unload hook raises is left in the store
by the first delete, so a second delete invokes the hook again — two
invocations over the lifetime of one form. -/
theorem unload_twice_cex_C9 :
    (runOps [("F", raisingHookRec)] [] "F" [.del true, .del true]).2.count "F"
      = 2
    ∧ ¬ (runOps [("F", raisingHookRec)] [] "F"
        [.del true, .del true]).2.count "F" ≤ 1 := by
  constructor
  · decide
  · decide

end HikkaForm
